import Mathlib

/-!
# Verification of the investment-projection engine

Shallow embedding of the core calculation modules of the
`calculadora-investimentos` repository:

* `src/constants.ts` — the tax-bracket table `TAX_BRACKETS` and rate constants;
* the taxation module (`getTaxBracket`, `getTaxRate`, `calculateNetReturn`,
  `calculateTaxAmount`);
* the returns module (`getEffectiveAnnualRate`, `calculateGrossReturn`,
  `calculateInvestmentGrossReturn`, `calculateInvestmentNetReturn`,
  `generateGrossReturnSeries`, `generateNetReturnSeries`, `findBreakEvenDay`);
* `src/chart/datasets.ts` — `buildInvestmentDataPoints` and
  `getSampleInterval`.

Modelling conventions:

* JavaScript numbers that the engine treats as exact values (tax rates,
  percentage magnitudes, reference indices) are modelled as rationals `ℚ`;
  quantities produced by `Math.pow` compounding are modelled as reals `ℝ`
  with `Real.rpow`.
* Holding periods / day offsets are integers `ℤ` (negative values are
  meaningful for the bracket lookup) or naturals `ℕ` where the code only
  ever produces a loop counter.
* `Infinity` as a bracket upper bound is modelled by `Option ℤ` with `none`
  standing for `+∞`: the source comparison `holdingDays <= b.maxDays` is
  vacuously true there.
* Dates are modelled at day granularity: a `Date` is an integer day index,
  `addDays` adds the offset and `getTime` multiplies by the number of
  milliseconds in a day; this mirrors the strictly monotone, injective
  day-to-timestamp mapping that the chart code relies on.
-/

/-- One row of the `TAX_BRACKETS` table (`src/constants.ts`).
`maxDays = none` encodes the JavaScript `Infinity` upper bound. -/
structure TaxBracket where
  minDays : ℤ
  maxDays : Option ℤ
  rate : ℚ
  deriving DecidableEq, Repr

/-- The fixed regressive-IR table from `src/constants.ts`. -/
def TAX_BRACKETS : List TaxBracket :=
  [⟨0, some 180, 0.225⟩,
   ⟨181, some 360, 0.20⟩,
   ⟨361, some 720, 0.175⟩,
   ⟨721, none, 0.15⟩]

/-- The predicate of the source lookup
`holdingDays >= b.minDays && holdingDays <= b.maxDays`;
a `none` upper bound (`Infinity`) makes the second conjunct true. -/
def bracketMatches (holdingDays : ℤ) (b : TaxBracket) : Bool :=
  decide (b.minDays ≤ holdingDays) &&
    (match b.maxDays with
     | none => true
     | some m => decide (holdingDays ≤ m))

/-- `getTaxBracket` from the taxation module: first matching row of
`TAX_BRACKETS`, with the defensive fallback
`TAX_BRACKETS[TAX_BRACKETS.length - 1]` when no row matches. -/
def getTaxBracket (holdingDays : ℤ) : TaxBracket :=
  match TAX_BRACKETS.find? (bracketMatches holdingDays) with
  | some b => b
  | none => TAX_BRACKETS.getLast (by simp [TAX_BRACKETS])

/-- `getTaxRate` from the taxation module. -/
def getTaxRate (holdingDays : ℤ) : ℚ :=
  (getTaxBracket holdingDays).rate

/-- `DAYS_IN_YEAR` from `src/constants.ts`. -/
def DAYS_IN_YEAR : ℕ := 365

/-- The fields of an `Investment` that the engine reads (`src/types`):
its rate kind (the literal string of the TS union `InvestmentType`), the
percentage-scale `rate` magnitude, and the IR flag.  Unrecognized kind
strings are representable because the source's `switch` has a `default`
arm. -/
structure Investment where
  type : String
  rate : ℚ
  isTaxed : Bool

/-- The `GlobalRates` record: CDI, IPCA and SELIC as annual decimals. -/
structure GlobalRates where
  cdi : ℚ
  ipca : ℚ
  selic : ℚ

/-- `getEffectiveAnnualRate` from the returns module: the `switch` on the
investment's type string, with the `default` arm returning 0 (after a
logged warning). -/
def getEffectiveAnnualRate (investment : Investment) (rates : GlobalRates) : ℚ :=
  if investment.type = "cdi-percent" then rates.cdi * (investment.rate / 100)
  else if investment.type = "ipca-plus" then rates.ipca + investment.rate / 100
  else if investment.type = "cdi-plus" then rates.cdi + investment.rate / 100
  else if investment.type = "prefixed" then investment.rate / 100
  else if investment.type = "selic-plus" then rates.selic + investment.rate / 100
  else 0

/-- `calculateNetReturn` from the taxation module: gross for untaxed
instruments, gross for non-positive gains, otherwise
`gross × (1 - taxRate)`. -/
noncomputable def calculateNetReturn (grossReturn : ℝ) (holdingDays : ℤ)
    (isTaxed : Bool) : ℝ :=
  if isTaxed = false then grossReturn
  else if grossReturn ≤ 0 then grossReturn
  else grossReturn * (1 - (getTaxRate holdingDays : ℝ))

/-- `calculateTaxAmount` from the taxation module. -/
noncomputable def calculateTaxAmount (grossReturn : ℝ) (holdingDays : ℤ)
    (isTaxed : Bool) : ℝ :=
  if isTaxed = false ∨ grossReturn ≤ 0 then 0
  else grossReturn * (getTaxRate holdingDays : ℝ)

/-- `calculateGrossReturn` from the returns module:
`(1 + annualRate)^(days/365) - 1` with the `days ≤ 0` and
`annualRate ≤ -1` guards, modelled with real exponentiation. -/
noncomputable def calculateGrossReturn (annualRate : ℝ) (days : ℝ) : ℝ :=
  if days ≤ 0 then 0
  else if annualRate ≤ -1 then -1
  else (1 + annualRate) ^ (days / (DAYS_IN_YEAR : ℝ)) - 1

/-- `calculateInvestmentGrossReturn`: effective annual rate threaded into
the compounding formula. -/
noncomputable def calculateInvestmentGrossReturn (investment : Investment)
    (rates : GlobalRates) (days : ℤ) : ℝ :=
  calculateGrossReturn ((getEffectiveAnnualRate investment rates : ℚ) : ℝ) (days : ℝ)

/-- `calculateInvestmentNetReturn`: gross return then taxation. -/
noncomputable def calculateInvestmentNetReturn (investment : Investment)
    (rates : GlobalRates) (days : ℤ) : ℝ :=
  calculateNetReturn (calculateInvestmentGrossReturn investment rates days)
    days investment.isTaxed

/-- `generateGrossReturnSeries`: the annual rate is computed once, then the
closed-form gross return is evaluated at each integer day `0..totalDays`. -/
noncomputable def generateGrossReturnSeries (investment : Investment)
    (rates : GlobalRates) (totalDays : ℕ) : List ℝ :=
  (List.range (totalDays + 1)).map
    (fun (day : ℕ) => calculateGrossReturn
      ((getEffectiveAnnualRate investment rates : ℚ) : ℝ) (day : ℝ))

/-- `generateNetReturnSeries`: `grossSeries.map((grossReturn, day) => ...)`,
re-applying `calculateNetReturn` at each day offset. -/
noncomputable def generateNetReturnSeries (investment : Investment)
    (rates : GlobalRates) (totalDays : ℕ) : List ℝ :=
  (generateGrossReturnSeries investment rates totalDays).mapIdx
    (fun day grossReturn => calculateNetReturn grossReturn day investment.isTaxed)

open Classical in
/-- The loop body of `findBreakEvenDay`: scan days `start`, `start+1`, …
while `remaining` iterations are left, returning the first day where the
taxed instrument's net return is at least the untaxed instrument's. -/
noncomputable def breakEvenFrom (taxedInvestment untaxedInvestment : Investment)
    (rates : GlobalRates) : ℕ → ℕ → Option ℕ
  | _, 0 => none
  | day, remaining + 1 =>
      if calculateInvestmentNetReturn untaxedInvestment rates day ≤
          calculateInvestmentNetReturn taxedInvestment rates day
      then some day
      else breakEvenFrom taxedInvestment untaxedInvestment rates (day + 1) remaining

/-- `findBreakEvenDay` from the returns module: linear scan
`day = 1 .. maxDays`, `null` when the loop falls through. -/
noncomputable def findBreakEvenDay (taxedInvestment untaxedInvestment : Investment)
    (rates : GlobalRates) (maxDays : ℕ) : Option ℕ :=
  breakEvenFrom taxedInvestment untaxedInvestment rates 1 maxDays

/-- `findBreakEvenDay` at its default argument `maxDays = 1080`. -/
noncomputable def findBreakEvenDayDefault
    (taxedInvestment untaxedInvestment : Investment) (rates : GlobalRates) :
    Option ℕ :=
  findBreakEvenDay taxedInvestment untaxedInvestment rates 1080

/-- Milliseconds per day, the scale factor of `Date.getTime` in the
day-granularity date model. -/
def MS_PER_DAY : ℤ := 86400000

/-- `addDays` from `src/utils/dates.ts` in the day-granularity model:
dates are integer day indices. -/
def addDays (date : ℤ) (days : ℤ) : ℤ := date + days

/-- `Date.prototype.getTime` in the day-granularity model: a strictly
monotone, injective map from day index to millisecond timestamp. -/
def getTime (date : ℤ) : ℤ := date * MS_PER_DAY

/-- `daysBetween` from `src/utils/dates.ts`: whole days between the two
dates' midnights. -/
def daysBetween (start finish : ℤ) : ℤ := finish - start

/-- A Chart.js data point: `x` timestamp in ms, `y` net return. -/
structure ChartPoint where
  x : ℤ
  y : ℝ

/-- `getSampleInterval` from `src/chart/datasets.ts`. -/
def getSampleInterval (totalDays : ℕ) : ℕ :=
  if totalDays ≤ 90 then 1
  else if totalDays ≤ 365 then 3
  else if totalDays ≤ 730 then 7
  else if totalDays ≤ 1825 then 14
  else 30

/-- The `taxDays` literal of `buildInvestmentDataPoints`. -/
def chartTaxDays : List ℕ := [180, 181, 360, 361, 720, 721]

/-- The stride-sampling loop of `buildInvestmentDataPoints`:
`for (day = 0; day <= totalDays; day += sampleInterval)`. -/
noncomputable def stridePoints (startDate : ℤ) (netReturns : List ℝ)
    (totalDays s : ℕ) : List ChartPoint :=
  (List.range (totalDays / s + 1)).map
    (fun (k : ℕ) =>
      ⟨getTime (addDays startDate ((k * s : ℕ) : ℤ)), netReturns.getD (k * s) 0⟩)

/-- The "always include the last day" fix-up: push the day-`totalDays`
point unless the list already ends with its timestamp. -/
noncomputable def withLastDay (startDate : ℤ) (netReturns : List ℝ)
    (totalDays : ℕ) (points : List ChartPoint) : List ChartPoint :=
  if (points.getLast?).any
      (fun p => p.x == getTime (addDays startDate (totalDays : ℤ)))
  then points
  else points ++
    [⟨getTime (addDays startDate (totalDays : ℤ)), netReturns.getD totalDays 0⟩]

/-- The tax-bracket-day insertion loop (`taxDays.forEach`): for each
transition day within the horizon, push its point unless some existing
point has its timestamp. -/
noncomputable def withTaxDays (startDate : ℤ) (netReturns : List ℝ)
    (totalDays : ℕ) : List ℕ → List ChartPoint → List ChartPoint
  | [], points => points
  | day :: rest, points =>
      withTaxDays startDate netReturns totalDays rest
        (if day ≤ totalDays then
          if points.any (fun p => p.x == getTime (addDays startDate (day : ℤ)))
          then points
          else points ++
            [⟨getTime (addDays startDate (day : ℤ)), netReturns.getD day 0⟩]
        else points)

/-- The comparator of `points.sort((a, b) => a.x - b.x)`. -/
def pointLE (a b : ChartPoint) : Prop := a.x ≤ b.x

instance : DecidableRel pointLE :=
  fun a b => inferInstanceAs (Decidable (a.x ≤ b.x))

instance : IsTotal ChartPoint pointLE :=
  ⟨fun a b => le_total a.x b.x⟩

instance : IsTrans ChartPoint pointLE :=
  ⟨fun _ _ _ h1 h2 => le_trans h1 h2⟩

/-- `buildInvestmentDataPoints` from `src/chart/datasets.ts`: the degenerate
single-point case for non-positive horizons, otherwise stride sampling,
the last-day fix-up, tax-day insertion, and the final sort by timestamp
(modelled by insertion sort — any comparison sort agrees on lists whose
timestamps are distinct, which is proved below). -/
noncomputable def buildInvestmentDataPoints (investment : Investment)
    (rates : GlobalRates) (startDate endDate : ℤ) : List ChartPoint :=
  let totalDays := daysBetween startDate endDate
  if totalDays ≤ 0 then [⟨getTime startDate, 0⟩]
  else
    let T := totalDays.toNat
    let netReturns := generateNetReturnSeries investment rates T
    List.insertionSort pointLE
      (withTaxDays startDate netReturns T chartTaxDays
        (withLastDay startDate netReturns T
          (stridePoints startDate netReturns T (getSampleInterval T))))

/-- The ℤ-level shape of the tax-day insertion loop. -/
def dayXFold (startDate : ℤ) (totalDays : ℕ) : List ℕ → List ℤ → List ℤ
  | [], xs => xs
  | day :: rest, xs =>
      dayXFold startDate totalDays rest
        (if day ≤ totalDays then
          if getTime (addDays startDate (day : ℤ)) ∈ xs then xs
          else xs ++ [getTime (addDays startDate (day : ℤ))]
        else xs)

/-- The x coordinates of the stride samples, as a function of the horizon
only. -/
def strideXs (startDate : ℤ) (totalDays : ℕ) : List ℤ :=
  (List.range (totalDays / getSampleInterval totalDays + 1)).map
    (fun k => getTime (addDays startDate ((k * getSampleInterval totalDays : ℕ) : ℤ)))

/-- The x coordinates after the last-day fix-up, as a function of the
horizon only. -/
def lastFixXs (startDate : ℤ) (totalDays : ℕ) : List ℤ :=
  if ((strideXs startDate totalDays).getLast?).any
      (fun v => v == getTime (addDays startDate (totalDays : ℤ)))
  then strideXs startDate totalDays
  else strideXs startDate totalDays ++ [getTime (addDays startDate (totalDays : ℤ))]

/-- The sampled x coordinates of `buildInvestmentDataPoints` before the
final sort, as a function of the start date and the horizon only. -/
def sampleXs (startDate : ℤ) (totalDays : ℕ) : List ℤ :=
  dayXFold startDate totalDays chartTaxDays (lastFixXs startDate totalDays)

lemma getTaxBracket_of_le180 (d : ℤ) (h0 : 0 ≤ d) (h1 : d ≤ 180) :
    getTaxBracket d = ⟨0, some 180, 0.225⟩ := by
  have hf : TAX_BRACKETS.find? (bracketMatches d) = some ⟨0, some 180, 0.225⟩ := by
    show List.find? _ ([⟨0, some 180, 0.225⟩, ⟨181, some 360, 0.20⟩,
      ⟨361, some 720, 0.175⟩, ⟨721, none, 0.15⟩] : List TaxBracket) = _
    rw [List.find?_cons_of_pos _ (by simp [bracketMatches]; omega)]
  simp only [getTaxBracket, hf]

lemma getTaxBracket_of_le360 (d : ℤ) (h0 : 181 ≤ d) (h1 : d ≤ 360) :
    getTaxBracket d = ⟨181, some 360, 0.20⟩ := by
  have hf : TAX_BRACKETS.find? (bracketMatches d) = some ⟨181, some 360, 0.20⟩ := by
    show List.find? _ ([⟨0, some 180, 0.225⟩, ⟨181, some 360, 0.20⟩,
      ⟨361, some 720, 0.175⟩, ⟨721, none, 0.15⟩] : List TaxBracket) = _
    rw [List.find?_cons_of_neg _ (by simp [bracketMatches]; omega),
        List.find?_cons_of_pos _ (by simp [bracketMatches]; omega)]
  simp only [getTaxBracket, hf]

lemma getTaxBracket_of_le720 (d : ℤ) (h0 : 361 ≤ d) (h1 : d ≤ 720) :
    getTaxBracket d = ⟨361, some 720, 0.175⟩ := by
  have hf : TAX_BRACKETS.find? (bracketMatches d) = some ⟨361, some 720, 0.175⟩ := by
    show List.find? _ ([⟨0, some 180, 0.225⟩, ⟨181, some 360, 0.20⟩,
      ⟨361, some 720, 0.175⟩, ⟨721, none, 0.15⟩] : List TaxBracket) = _
    rw [List.find?_cons_of_neg _ (by simp [bracketMatches]; omega),
        List.find?_cons_of_neg _ (by simp [bracketMatches]; omega),
        List.find?_cons_of_pos _ (by simp [bracketMatches]; omega)]
  simp only [getTaxBracket, hf]

lemma getTaxBracket_of_ge721 (d : ℤ) (h0 : 721 ≤ d) :
    getTaxBracket d = ⟨721, none, 0.15⟩ := by
  have hf : TAX_BRACKETS.find? (bracketMatches d) = some ⟨721, none, 0.15⟩ := by
    show List.find? _ ([⟨0, some 180, 0.225⟩, ⟨181, some 360, 0.20⟩,
      ⟨361, some 720, 0.175⟩, ⟨721, none, 0.15⟩] : List TaxBracket) = _
    rw [List.find?_cons_of_neg _ (by simp [bracketMatches]; omega),
        List.find?_cons_of_neg _ (by simp [bracketMatches]; omega),
        List.find?_cons_of_neg _ (by simp [bracketMatches]; omega),
        List.find?_cons_of_pos _ (by simp [bracketMatches]; omega)]
  simp only [getTaxBracket, hf]

/-- Negative holding periods match no row, so the source's defensive
fallback `TAX_BRACKETS[TAX_BRACKETS.length - 1]` (the open last bracket)
is returned. -/
lemma getTaxBracket_of_neg (d : ℤ) (h0 : d < 0) :
    getTaxBracket d = ⟨721, none, 0.15⟩ := by
  have hf : TAX_BRACKETS.find? (bracketMatches d) = none := by
    show List.find? _ ([⟨0, some 180, 0.225⟩, ⟨181, some 360, 0.20⟩,
      ⟨361, some 720, 0.175⟩, ⟨721, none, 0.15⟩] : List TaxBracket) = _
    rw [List.find?_cons_of_neg _ (by simp [bracketMatches]; omega),
        List.find?_cons_of_neg _ (by simp [bracketMatches]; omega),
        List.find?_cons_of_neg _ (by simp [bracketMatches]; omega),
        List.find?_cons_of_neg _ (by simp [bracketMatches]; omega)]
    rfl
  simp only [getTaxBracket, hf]
  rfl

/-- Closed-form case analysis of the rate lookup. -/
lemma getTaxRate_eq (d : ℤ) :
    getTaxRate d =
      if 0 ≤ d ∧ d ≤ 180 then 0.225
      else if 181 ≤ d ∧ d ≤ 360 then 0.20
      else if 361 ≤ d ∧ d ≤ 720 then 0.175
      else 0.15 := by
  unfold getTaxRate
  split_ifs with h1 h2 h3
  · rw [getTaxBracket_of_le180 d h1.1 h1.2]
  · rw [getTaxBracket_of_le360 d h2.1 h2.2]
  · rw [getTaxBracket_of_le720 d h3.1 h3.2]
  · rcases lt_or_le d 0 with h | h
    · rw [getTaxBracket_of_neg d h]
    · rw [getTaxBracket_of_ge721 d (by omega)]

/-- The rate is always one of the four table values; in particular it is
strictly between 0 and 1. -/
lemma getTaxRate_pos_lt_one (d : ℤ) : 0 < getTaxRate d ∧ getTaxRate d < 1 := by
  rw [getTaxRate_eq]
  split_ifs <;> norm_num

/-- **C1.** For every integer `holdingDays`: the rate is 0.225 on `[0,180]`,
0.20 on `[181,360]`, 0.175 on `[361,720]`, and 0.15 from 721 on; the six
boundary values 180, 181, 360, 361, 720, 721 map to 0.225, 0.20, 0.20,
0.175, 0.175, 0.15 respectively. -/
theorem taxRate_bracket_table (d : ℤ) :
    (0 ≤ d → d ≤ 180 → getTaxRate d = 0.225) ∧
    (181 ≤ d → d ≤ 360 → getTaxRate d = 0.20) ∧
    (361 ≤ d → d ≤ 720 → getTaxRate d = 0.175) ∧
    (721 ≤ d → getTaxRate d = 0.15) ∧
    (getTaxRate 180 = 0.225 ∧ getTaxRate 181 = 0.20 ∧
     getTaxRate 360 = 0.20 ∧ getTaxRate 361 = 0.175 ∧
     getTaxRate 720 = 0.175 ∧ getTaxRate 721 = 0.15) := by
  refine ⟨fun h0 h1 => ?_, fun h0 h1 => ?_, fun h0 h1 => ?_, fun h0 => ?_, ?_⟩
  · rw [getTaxRate_eq]; split_ifs <;> first | rfl | omega
  · rw [getTaxRate_eq]; split_ifs <;> first | rfl | omega
  · rw [getTaxRate_eq]; split_ifs <;> first | rfl | omega
  · rw [getTaxRate_eq]; split_ifs <;> first | rfl | omega
  · refine ⟨?_, ?_, ?_, ?_, ?_, ?_⟩ <;>
      · rw [getTaxRate_eq]; norm_num

/-- Witness for C1: the four interval facts applied at days 100, 300, 500
and 1000. -/
theorem taxRate_bracket_table_witness :
    getTaxRate 100 = 0.225 ∧ getTaxRate 300 = 0.20 ∧
    getTaxRate 500 = 0.175 ∧ getTaxRate 1000 = 0.15 :=
  ⟨(taxRate_bracket_table 100).1 (by norm_num) (by norm_num),
   (taxRate_bracket_table 300).2.1 (by norm_num) (by norm_num),
   (taxRate_bracket_table 500).2.2.1 (by norm_num) (by norm_num),
   (taxRate_bracket_table 1000).2.2.2.1 (by norm_num)⟩

/-- **C2, counterexample.** At `holdingDays = -1` the lookup matches no row
(`-1 >= 0` already fails), so the code returns the defensive fallback — the
*last* bracket with rate 0.15 — not the first bracket with rate 0.225 as
the claim states. -/
theorem taxBracket_neg_counterexample :
    getTaxBracket (-1) ≠ ⟨0, some 180, 0.225⟩ ∧ getTaxRate (-1) ≠ 0.225 := by
  have h := getTaxBracket_of_neg (-1) (by norm_num)
  refine ⟨by rw [h]; simp, ?_⟩
  rw [getTaxRate, h]
  norm_num

/-- **C2, amended.** For every `holdingDays < 0`, `getTaxBracket` returns
the last (open) bracket `{minDays 721, maxDays ∞, rate 0.15}` via the
defensive fallback, so `getTaxRate` is 0.15. -/
theorem taxBracket_neg_fallback (d : ℤ) (h : d < 0) :
    getTaxBracket d = ⟨721, none, 0.15⟩ ∧ getTaxRate d = 0.15 := by
  refine ⟨getTaxBracket_of_neg d h, ?_⟩
  rw [getTaxRate, getTaxBracket_of_neg d h]

/-- Witness for the amended C2 at `holdingDays = -5`. -/
theorem taxBracket_neg_fallback_witness :
    getTaxBracket (-5) = ⟨721, none, 0.15⟩ ∧ getTaxRate (-5) = 0.15 :=
  taxBracket_neg_fallback (-5) (by norm_num)

lemma getElem_mapIdx (l : List ℝ) (f : ℕ → ℝ → ℝ) (i : ℕ)
    (h : i < (l.mapIdx f).length) :
    (l.mapIdx f)[i] = f i (l.get ⟨i, by simpa using h⟩) := by
  have h2 : i < l.length := by simpa using h
  have := List.get_mapIdx l f i h2
  simp [List.get_eq_getElem] at this
  simp [List.get_eq_getElem, this]

lemma length_grossSeries (investment : Investment) (rates : GlobalRates)
    (totalDays : ℕ) :
    (generateGrossReturnSeries investment rates totalDays).length = totalDays + 1 := by
  simp only [generateGrossReturnSeries, List.length_map, List.length_range]

lemma length_netSeries (investment : Investment) (rates : GlobalRates)
    (totalDays : ℕ) :
    (generateNetReturnSeries investment rates totalDays).length = totalDays + 1 := by
  simp only [generateNetReturnSeries, List.length_mapIdx, length_grossSeries]

lemma grossSeries_getElem (investment : Investment) (rates : GlobalRates)
    (totalDays d : ℕ)
    (h : d < (generateGrossReturnSeries investment rates totalDays).length) :
    (generateGrossReturnSeries investment rates totalDays)[d] =
      calculateGrossReturn
        ((getEffectiveAnnualRate investment rates : ℚ) : ℝ) (d : ℝ) := by
  unfold generateGrossReturnSeries at h ⊢
  rw [List.getElem_map]
  congr 2
  simp

lemma grossSeries_getD (investment : Investment) (rates : GlobalRates)
    (totalDays d : ℕ) (h : d ≤ totalDays) :
    (generateGrossReturnSeries investment rates totalDays).getD d 0 =
      calculateGrossReturn
        ((getEffectiveAnnualRate investment rates : ℚ) : ℝ) (d : ℝ) := by
  have hlt : d < (generateGrossReturnSeries investment rates totalDays).length := by
    rw [length_grossSeries]; omega
  rw [List.getD_eq_getElem _ _ hlt, grossSeries_getElem _ _ _ _ hlt]

lemma netSeries_getD (investment : Investment) (rates : GlobalRates)
    (totalDays d : ℕ) (h : d ≤ totalDays) :
    (generateNetReturnSeries investment rates totalDays).getD d 0 =
      calculateNetReturn
        (calculateGrossReturn
          ((getEffectiveAnnualRate investment rates : ℚ) : ℝ) (d : ℝ))
        d investment.isTaxed := by
  have hlt : d < (generateNetReturnSeries investment rates totalDays).length := by
    rw [length_netSeries]; omega
  have hlt2 : d < (generateGrossReturnSeries investment rates totalDays).length := by
    rw [length_grossSeries]; omega
  rw [List.getD_eq_getElem _ _ hlt]
  unfold generateNetReturnSeries at hlt ⊢
  rw [getElem_mapIdx _ _ _ hlt]
  congr 1
  rw [List.get_eq_getElem, grossSeries_getElem _ _ _ _ hlt2]

/-- **C3.** `calculateGrossReturn` is a total real-valued function: it
returns 0 whenever `days ≤ 0` (for every rate), exactly -1 whenever
`days > 0` and `annualRate ≤ -1`, and otherwise the compound value
`(1 + annualRate)^(days/365) - 1`, with `days` allowed to be fractional.
(In the real-number model no input can produce a NaN or complex result:
the guards keep the base of the exponentiation positive.) -/
theorem grossReturn_branches (annualRate days : ℝ) :
    (days ≤ 0 → calculateGrossReturn annualRate days = 0) ∧
    (0 < days → annualRate ≤ -1 → calculateGrossReturn annualRate days = -1) ∧
    (0 < days → -1 < annualRate →
      calculateGrossReturn annualRate days =
        (1 + annualRate) ^ (days / 365) - 1) := by
  unfold calculateGrossReturn
  refine ⟨fun h => ?_, fun h h2 => ?_, fun h h2 => ?_⟩
  · rw [if_pos h]
  · rw [if_neg (by linarith), if_pos h2]
  · rw [if_neg (by linarith), if_neg (by linarith)]
    norm_num [DAYS_IN_YEAR]

/-- Witness for C3: the three branches at `days = 0`, at
`(annualRate, days) = (-2, 10)`, and at `(annualRate, days) = (1, 182.5)`
(a fractional day count). -/
theorem grossReturn_branches_witness :
    calculateGrossReturn 0.5 0 = 0 ∧
    calculateGrossReturn (-2) 10 = -1 ∧
    calculateGrossReturn 1 182.5 = (1 + 1) ^ ((182.5 : ℝ) / 365) - 1 :=
  ⟨(grossReturn_branches 0.5 0).1 (by norm_num),
   (grossReturn_branches (-2) 10).2.1 (by norm_num) (by norm_num),
   (grossReturn_branches 1 182.5).2.2 (by norm_num) (by norm_num)⟩

/-- **C4.** `calculateNetReturn` returns the gross return unchanged for
untaxed instruments and for non-positive gross returns, and
`gross × (1 - rate)` for positive taxed gross returns; taxation never
inverts the sign of a return. -/
theorem netReturn_spec (g : ℝ) (d : ℤ) :
    calculateNetReturn g d false = g ∧
    (g ≤ 0 → calculateNetReturn g d true = g) ∧
    (0 < g → calculateNetReturn g d true = g * (1 - (getTaxRate d : ℝ))) ∧
    (∀ t : Bool, 0 < g → 0 < calculateNetReturn g d t) ∧
    (∀ t : Bool, g ≤ 0 → calculateNetReturn g d t = g) := by
  have hr := getTaxRate_pos_lt_one d
  have hr1 : ((getTaxRate d : ℚ) : ℝ) < 1 := by exact_mod_cast hr.2
  refine ⟨rfl, fun h => ?_, fun h => ?_, fun t h => ?_, fun t h => ?_⟩
  · unfold calculateNetReturn
    norm_num [h]
  · unfold calculateNetReturn
    rw [if_neg (by norm_num), if_neg (by linarith)]
  · cases t with
    | false => exact h
    | true =>
        unfold calculateNetReturn
        rw [if_neg (by norm_num), if_neg (by linarith)]
        have : (0 : ℝ) < 1 - (getTaxRate d : ℝ) := by linarith
        positivity
  · cases t with
    | false => rfl
    | true =>
        unfold calculateNetReturn
        norm_num [h]

/-- Witness for C4 at `(g, d) = (-0.25, 100)`, `(0.1, 100)`. -/
theorem netReturn_spec_witness :
    calculateNetReturn (-0.25) 100 true = -0.25 ∧
    calculateNetReturn 0.1 100 true = 0.1 * (1 - (getTaxRate 100 : ℝ)) ∧
    0 < calculateNetReturn 0.1 100 true ∧
    calculateNetReturn (-0.25) 100 false = -0.25 :=
  ⟨(netReturn_spec (-0.25) 100).2.1 (by norm_num),
   (netReturn_spec 0.1 100).2.2.1 (by norm_num),
   (netReturn_spec 0.1 100).2.2.2.1 true (by norm_num),
   (netReturn_spec (-0.25) 100).2.2.2.2 false (by norm_num)⟩

/-- **C9.** For every gross return, holding period, and taxability flag,
the net return and the tax amount partition the gross return exactly:
`calculateNetReturn g d t + calculateTaxAmount g d t = g`. -/
theorem netReturn_add_taxAmount (g : ℝ) (d : ℤ) (t : Bool) :
    calculateNetReturn g d t + calculateTaxAmount g d t = g := by
  unfold calculateNetReturn calculateTaxAmount
  cases t with
  | false => norm_num
  | true =>
      rcases le_or_lt g 0 with h | h
      · simp [h]
      · simp only [Bool.true_eq_false, if_false, if_neg h.not_le,
          false_or, ite_false]
        ring

/-- **C5.** `getEffectiveAnnualRate` maps each recognized kind string to
its formula (`cdi-percent` scales CDI, the three `-plus` kinds add the
spread to their index, `prefixed` is the fixed rate), returns 0 for every
unrecognized kind, and reproduces the spec's numeric examples exactly:
110% of CDI 0.1065 is 0.11715, prefixed 12 is 0.12, IPCA(0.045)+6 is
0.105. -/
theorem effectiveAnnualRate_spec (m : ℚ) (t : Bool) (rates : GlobalRates) :
    getEffectiveAnnualRate ⟨"cdi-percent", m, t⟩ rates = rates.cdi * (m / 100) ∧
    getEffectiveAnnualRate ⟨"ipca-plus", m, t⟩ rates = rates.ipca + m / 100 ∧
    getEffectiveAnnualRate ⟨"cdi-plus", m, t⟩ rates = rates.cdi + m / 100 ∧
    getEffectiveAnnualRate ⟨"selic-plus", m, t⟩ rates = rates.selic + m / 100 ∧
    getEffectiveAnnualRate ⟨"prefixed", m, t⟩ rates = m / 100 ∧
    (∀ ty : String,
      ty ∉ ["cdi-percent", "ipca-plus", "cdi-plus", "prefixed", "selic-plus"] →
      getEffectiveAnnualRate ⟨ty, m, t⟩ rates = 0) ∧
    getEffectiveAnnualRate ⟨"cdi-percent", 110, t⟩ ⟨0.1065, 0.045, 0.1075⟩ = 0.11715 ∧
    getEffectiveAnnualRate ⟨"prefixed", 12, t⟩ ⟨0.1065, 0.045, 0.1075⟩ = 0.12 ∧
    getEffectiveAnnualRate ⟨"ipca-plus", 6, t⟩ ⟨0.1065, 0.045, 0.1075⟩ = 0.105 := by
  refine ⟨by simp [getEffectiveAnnualRate], by simp [getEffectiveAnnualRate],
    by simp [getEffectiveAnnualRate], by simp [getEffectiveAnnualRate],
    by simp [getEffectiveAnnualRate], fun ty h => ?_, ?_, ?_, ?_⟩
  · simp only [List.mem_cons, List.not_mem_nil, or_false, not_or] at h
    obtain ⟨h1, h2, h3, h4, h5⟩ := h
    simp [getEffectiveAnnualRate, h1, h2, h3, h4, h5]
  · simp [getEffectiveAnnualRate]
    norm_num
  · simp [getEffectiveAnnualRate]
    norm_num
  · simp [getEffectiveAnnualRate]
    norm_num

/-- Witness for C5: the unknown-kind clause applied at the concrete kind
string `"fx-swap"`, together with the concrete rate examples. -/
theorem effectiveAnnualRate_spec_witness :
    getEffectiveAnnualRate ⟨"fx-swap", 50, false⟩ ⟨0.1065, 0.045, 0.1075⟩ = 0 ∧
    getEffectiveAnnualRate ⟨"cdi-percent", 110, true⟩ ⟨0.1065, 0.045, 0.1075⟩ = 0.11715 :=
  ⟨(effectiveAnnualRate_spec 50 false ⟨0.1065, 0.045, 0.1075⟩).2.2.2.2.2.1
      "fx-swap" (by simp),
   (effectiveAnnualRate_spec 110 true ⟨0.1065, 0.045, 0.1075⟩).2.2.2.2.2.2.1⟩

/-- **C10.** The day-0 entry of both generated series is exactly 0, and so
is `calculateInvestmentNetReturn` at day 0 — for every investment, rate
kind, sign of the effective rate, and taxability.  (The length conjuncts
record that the day-0 entries read below are genuine list entries.) -/
theorem series_day_zero (investment : Investment) (rates : GlobalRates)
    (totalDays : ℕ) :
    (generateGrossReturnSeries investment rates totalDays).length = totalDays + 1 ∧
    (generateNetReturnSeries investment rates totalDays).length = totalDays + 1 ∧
    (generateGrossReturnSeries investment rates totalDays).getD 0 0 = 0 ∧
    (generateNetReturnSeries investment rates totalDays).getD 0 0 = 0 ∧
    calculateInvestmentNetReturn investment rates 0 = 0 := by
  have hg : calculateGrossReturn
      ((getEffectiveAnnualRate investment rates : ℚ) : ℝ) ((0 : ℕ) : ℝ) = 0 := by
    unfold calculateGrossReturn
    norm_num
  refine ⟨length_grossSeries _ _ _, length_netSeries _ _ _, ?_, ?_, ?_⟩
  · rw [grossSeries_getD _ _ _ 0 (Nat.zero_le _), hg]
  · rw [netSeries_getD _ _ _ 0 (Nat.zero_le _), hg]
    unfold calculateNetReturn
    cases investment.isTaxed <;> norm_num
  · unfold calculateInvestmentNetReturn calculateInvestmentGrossReturn
    have h0 : calculateGrossReturn
        ((getEffectiveAnnualRate investment rates : ℚ) : ℝ) ((0 : ℤ) : ℝ) = 0 := by
      unfold calculateGrossReturn
      norm_num
    rw [h0]
    unfold calculateNetReturn
    cases investment.isTaxed <;> norm_num

lemma breakEvenFrom_some_iff (t u : Investment) (r : GlobalRates) (d : ℕ) :
    ∀ n start : ℕ,
      breakEvenFrom t u r start n = some d ↔
        (start ≤ d ∧ d < start + n ∧
         calculateInvestmentNetReturn u r d ≤ calculateInvestmentNetReturn t r d ∧
         ∀ k, start ≤ k → k < d →
           ¬ (calculateInvestmentNetReturn u r k ≤
              calculateInvestmentNetReturn t r k)) := by
  intro n
  induction n with
  | zero =>
      intro start
      simp only [breakEvenFrom]
      constructor
      · intro h
        exact absurd h (by simp)
      · intro ⟨h1, h2, _⟩
        omega
  | succ n ih =>
      intro start
      rw [breakEvenFrom]
      split_ifs with h
      · constructor
        · intro hs
          have hd : start = d := by
            simpa using hs
          subst hd
          exact ⟨le_refl _, by omega, h, fun k hk1 hk2 => by omega⟩
        · intro ⟨h1, _, _, hmin⟩
          rcases eq_or_lt_of_le h1 with rfl | hlt
          · rfl
          · exact absurd h (hmin start (le_refl _) hlt)
      · rw [ih (start + 1)]
        constructor
        · intro ⟨h1, h2, h3, hmin⟩
          refine ⟨by omega, by omega, h3, fun k hk1 hk2 => ?_⟩
          rcases eq_or_lt_of_le hk1 with rfl | hlt
          · exact h
          · exact hmin k (by omega) hk2
        · intro ⟨h1, h2, h3, hmin⟩
          have hne : start ≠ d := by
            rintro rfl
            exact h h3
          exact ⟨by omega, by omega, h3, fun k hk1 hk2 => hmin k (by omega) hk2⟩

lemma breakEvenFrom_none_iff (t u : Investment) (r : GlobalRates) :
    ∀ n start : ℕ,
      breakEvenFrom t u r start n = none ↔
        ∀ k, start ≤ k → k < start + n →
          ¬ (calculateInvestmentNetReturn u r k ≤
             calculateInvestmentNetReturn t r k) := by
  intro n
  induction n with
  | zero =>
      intro start
      simp only [breakEvenFrom]
      constructor
      · intro _ k hk1 hk2
        omega
      · intro _
        trivial
  | succ n ih =>
      intro start
      rw [breakEvenFrom]
      split_ifs with h
      · constructor
        · intro hc
          exact absurd hc (by simp)
        · intro hall
          exact absurd h (hall start (le_refl _) (by omega))
      · rw [ih (start + 1)]
        constructor
        · intro hall k hk1 hk2
          rcases eq_or_lt_of_le hk1 with rfl | hlt
          · exact h
          · exact hall k (by omega) (by omega)
        · intro hall k hk1 hk2
          exact hall k (by omega) (by omega)

/-- **C6.** `findBreakEvenDay(taxed, untaxed, rates, maxDays)` returns
`some d` exactly when some day in `1..maxDays` has taxed net return ≥
untaxed net return and `d` is the smallest such day (the `≥` tie-break:
the taxed instrument wins on exact equality); it returns `none` exactly
when the taxed net return stays strictly below the untaxed one on every
day of `1..maxDays`; and the default horizon is 1080 days. -/
theorem findBreakEvenDay_spec (t u : Investment) (r : GlobalRates) (m : ℕ) :
    (∀ d : ℕ, findBreakEvenDay t u r m = some d ↔
      (1 ≤ d ∧ d ≤ m ∧
       calculateInvestmentNetReturn u r d ≤ calculateInvestmentNetReturn t r d ∧
       ∀ k, 1 ≤ k → k < d →
         calculateInvestmentNetReturn t r k < calculateInvestmentNetReturn u r k)) ∧
    (findBreakEvenDay t u r m = none ↔
      ∀ k, 1 ≤ k → k ≤ m →
        calculateInvestmentNetReturn t r k < calculateInvestmentNetReturn u r k) ∧
    findBreakEvenDayDefault t u r = findBreakEvenDay t u r 1080 := by
  refine ⟨fun d => ?_, ?_, rfl⟩
  · rw [findBreakEvenDay, breakEvenFrom_some_iff]
    constructor
    · intro ⟨h1, h2, h3, hmin⟩
      exact ⟨h1, by omega, h3, fun k hk1 hk2 => not_le.mp (hmin k hk1 hk2)⟩
    · intro ⟨h1, h2, h3, hmin⟩
      exact ⟨h1, by omega, h3, fun k hk1 hk2 => not_le.mpr (hmin k hk1 hk2)⟩
  · rw [findBreakEvenDay, breakEvenFrom_none_iff]
    constructor
    · intro hall k hk1 hk2
      exact not_le.mp (hall k hk1 (by omega))
    · intro hall k hk1 hk2
      exact not_le.mpr (hall k hk1 (by omega))

lemma grossReturn_strict_mono_of_pos (a : ℝ) (ha : 0 < a) (d e : ℝ)
    (hd : 0 < d) (hde : d < e) :
    calculateGrossReturn a d < calculateGrossReturn a e := by
  unfold calculateGrossReturn
  rw [if_neg (by linarith), if_neg (by linarith),
      if_neg (by linarith), if_neg (by linarith)]
  have hbase : (1 : ℝ) < 1 + a := by linarith
  have h365 : (0 : ℝ) < (DAYS_IN_YEAR : ℝ) := by norm_num [DAYS_IN_YEAR]
  have := (Real.rpow_lt_rpow_left_iff hbase).mpr
    (div_lt_div_of_pos_right hde h365)
  linarith

lemma grossReturn_pos_of_pos (a : ℝ) (ha : 0 < a) (d : ℝ) (hd : 0 < d) :
    0 < calculateGrossReturn a d := by
  unfold calculateGrossReturn
  rw [if_neg (by linarith), if_neg (by linarith)]
  have hbase : (1 : ℝ) < 1 + a := by linarith
  have h365 : (0 : ℝ) < d / (DAYS_IN_YEAR : ℝ) := by
    apply div_pos hd
    norm_num [DAYS_IN_YEAR]
  have h1lt : (1 + a) ^ (0 : ℝ) < (1 + a) ^ (d / (DAYS_IN_YEAR : ℝ)) :=
    Real.rpow_lt_rpow_of_exponent_lt hbase h365
  rw [Real.rpow_zero] at h1lt
  linarith

/-- **C7.** For a taxable investment with positive effective annual rate
and a horizon of at least 721 days, the net return series jumps upward
between day 720 and day 721 (the bracket rate drops 0.175 → 0.15), while
the gross series entries at those days are the plain compound values
`(1+a)^(720/365) - 1` and `(1+a)^(721/365) - 1` — no bracket term —
differing only by the one-day compounding increment. -/
theorem netSeries_jump_at_721 (investment : Investment) (rates : GlobalRates)
    (totalDays : ℕ) (ht : investment.isTaxed = true)
    (hr : 0 < getEffectiveAnnualRate investment rates)
    (hT : 721 ≤ totalDays) :
    (generateNetReturnSeries investment rates totalDays).getD 720 0 <
      (generateNetReturnSeries investment rates totalDays).getD 721 0 ∧
    (generateGrossReturnSeries investment rates totalDays).getD 720 0 <
      (generateGrossReturnSeries investment rates totalDays).getD 721 0 ∧
    (generateGrossReturnSeries investment rates totalDays).getD 720 0 =
      (1 + ((getEffectiveAnnualRate investment rates : ℚ) : ℝ)) ^
        ((720 : ℝ) / 365) - 1 ∧
    (generateGrossReturnSeries investment rates totalDays).getD 721 0 =
      (1 + ((getEffectiveAnnualRate investment rates : ℚ) : ℝ)) ^
        ((721 : ℝ) / 365) - 1 := by
  have ha0 : (0 : ℝ) < ((getEffectiveAnnualRate investment rates : ℚ) : ℝ) := by
    exact_mod_cast hr
  have hg720 : 0 < calculateGrossReturn
      ((getEffectiveAnnualRate investment rates : ℚ) : ℝ) ((720 : ℕ) : ℝ) :=
    grossReturn_pos_of_pos _ ha0 _ (by norm_num)
  have hglt : calculateGrossReturn
        ((getEffectiveAnnualRate investment rates : ℚ) : ℝ) ((720 : ℕ) : ℝ) <
      calculateGrossReturn
        ((getEffectiveAnnualRate investment rates : ℚ) : ℝ) ((721 : ℕ) : ℝ) :=
    grossReturn_strict_mono_of_pos _ ha0 _ _ (by norm_num) (by norm_num)
  have hg721 : 0 < calculateGrossReturn
      ((getEffectiveAnnualRate investment rates : ℚ) : ℝ) ((721 : ℕ) : ℝ) := by
    linarith
  have hrate720 : (getTaxRate ((720 : ℕ) : ℤ) : ℝ) = 0.175 := by
    norm_num [getTaxRate_eq]
  have hrate721 : (getTaxRate ((721 : ℕ) : ℤ) : ℝ) = 0.15 := by
    norm_num [getTaxRate_eq]
  refine ⟨?_, ?_, ?_, ?_⟩
  · rw [netSeries_getD investment rates totalDays 720 (by omega),
        netSeries_getD investment rates totalDays 721 (by omega), ht]
    unfold calculateNetReturn
    rw [if_neg (by norm_num), if_neg (not_le.mpr hg720),
        if_neg (by norm_num), if_neg (not_le.mpr hg721)]
    rw [hrate720, hrate721]
    have e1 := mul_lt_mul_of_pos_right hglt
      (by norm_num : (0 : ℝ) < 1 - 0.175)
    have e2 := mul_lt_mul_of_pos_left
      (by norm_num : (1 : ℝ) - 0.175 < 1 - 0.15) hg721
    linarith
  · rw [grossSeries_getD investment rates totalDays 720 (by omega),
        grossSeries_getD investment rates totalDays 721 (by omega)]
    exact hglt
  · rw [grossSeries_getD investment rates totalDays 720 (by omega)]
    unfold calculateGrossReturn
    rw [if_neg (by norm_num), if_neg (by norm_num; linarith)]
    norm_num [DAYS_IN_YEAR]
  · rw [grossSeries_getD investment rates totalDays 721 (by omega)]
    unfold calculateGrossReturn
    rw [if_neg (by norm_num), if_neg (by norm_num; linarith)]
    norm_num [DAYS_IN_YEAR]

/-- Witness for C7: a taxed prefixed instrument at 12% over 721 days. -/
theorem netSeries_jump_at_721_witness :
    (generateNetReturnSeries ⟨"prefixed", 12, true⟩ ⟨0.1065, 0.045, 0.1075⟩ 721).getD 720 0 <
      (generateNetReturnSeries ⟨"prefixed", 12, true⟩ ⟨0.1065, 0.045, 0.1075⟩ 721).getD 721 0 :=
  (netSeries_jump_at_721 ⟨"prefixed", 12, true⟩ ⟨0.1065, 0.045, 0.1075⟩ 721
    rfl (by simp [getEffectiveAnnualRate]) (le_refl _)).1

lemma getTime_addDays_lt (startDate : ℤ) {d e : ℤ} (h : d < e) :
    getTime (addDays startDate d) < getTime (addDays startDate e) := by
  unfold getTime addDays MS_PER_DAY
  have := mul_lt_mul_of_pos_right
    (show startDate + d < startDate + e by omega)
    (show (0 : ℤ) < 86400000 by norm_num)
  exact this

lemma getTime_addDays_inj (startDate : ℤ) {d e : ℤ}
    (h : getTime (addDays startDate d) = getTime (addDays startDate e)) :
    d = e := by
  unfold getTime addDays MS_PER_DAY at h
  have := mul_right_cancel₀ (show (86400000 : ℤ) ≠ 0 by norm_num) h
  omega

lemma getSampleInterval_pos (totalDays : ℕ) : 0 < getSampleInterval totalDays := by
  unfold getSampleInterval
  split_ifs <;> norm_num

/-- The x coordinates of the stride points: they do not depend on the
net-return series. -/
lemma stridePoints_mapX (startDate : ℤ) (netReturns : List ℝ) (totalDays s : ℕ) :
    (stridePoints startDate netReturns totalDays s).map ChartPoint.x =
      (List.range (totalDays / s + 1)).map
        (fun k => getTime (addDays startDate ((k * s : ℕ) : ℤ))) := by
  unfold stridePoints
  rw [List.map_map]
  rfl

lemma stridePoints_mapX_pairwise (startDate : ℤ) (netReturns : List ℝ)
    (totalDays s : ℕ) (hs : 0 < s) :
    ((stridePoints startDate netReturns totalDays s).map ChartPoint.x).Pairwise
      (· < ·) := by
  rw [stridePoints_mapX]
  refine List.Pairwise.map _ (fun a b hab => ?_) (List.pairwise_lt_range _)
  exact getTime_addDays_lt startDate (by exact_mod_cast (Nat.mul_lt_mul_right hs).mpr hab)

lemma stridePoints_mapX_mem_zero (startDate : ℤ) (netReturns : List ℝ)
    (totalDays s : ℕ) :
    getTime (addDays startDate 0) ∈
      (stridePoints startDate netReturns totalDays s).map ChartPoint.x := by
  rw [stridePoints_mapX]
  refine List.mem_map.mpr ⟨0, ?_, by norm_num⟩
  simp

lemma stridePoints_mapX_getLast? (startDate : ℤ) (netReturns : List ℝ)
    (totalDays s : ℕ) :
    ((stridePoints startDate netReturns totalDays s).map ChartPoint.x).getLast? =
      some (getTime (addDays startDate ((totalDays / s * s : ℕ) : ℤ))) := by
  rw [stridePoints_mapX, List.range_succ, List.map_append]
  exact List.getLast?_concat _

lemma stridePoints_mapX_le (startDate : ℤ) (netReturns : List ℝ)
    (totalDays s : ℕ) (x : ℤ)
    (hx : x ∈ (stridePoints startDate netReturns totalDays s).map ChartPoint.x) :
    x ≤ getTime (addDays startDate ((totalDays / s * s : ℕ) : ℤ)) := by
  rw [stridePoints_mapX] at hx
  obtain ⟨k, hk, rfl⟩ := List.mem_map.mp hx
  rw [List.mem_range] at hk
  have hks : k * s ≤ totalDays / s * s :=
    Nat.mul_le_mul_right s (by omega)
  rcases eq_or_lt_of_le hks with h | h
  · rw [h]
  · exact le_of_lt (getTime_addDays_lt startDate (by exact_mod_cast h))

/-- The last-day fix-up at the level of x coordinates: the result depends
only on the x coordinates of the input points. -/
lemma withLastDay_mapX (startDate : ℤ) (netReturns : List ℝ) (totalDays : ℕ)
    (points : List ChartPoint) :
    (withLastDay startDate netReturns totalDays points).map ChartPoint.x =
      if ((points.map ChartPoint.x).getLast?).any
          (fun v => v == getTime (addDays startDate (totalDays : ℤ)))
      then points.map ChartPoint.x
      else points.map ChartPoint.x ++
        [getTime (addDays startDate (totalDays : ℤ))] := by
  unfold withLastDay
  rw [List.getLast?_map]
  cases h : points.getLast? with
  | none =>
      simp
  | some p =>
      simp only [Option.map_some', Option.any_some]
      split_ifs with h1
      · rfl
      · rw [List.map_append]
        rfl

/-- Membership in a point list's x coordinates, phrased through the
source's `points.find(p => p.x === timestamp)` test. -/
lemma any_x_eq (points : List ChartPoint) (c : ℤ) :
    (points.any (fun p => p.x == c)) = true ↔ c ∈ points.map ChartPoint.x := by
  simp only [List.any_eq_true, beq_iff_eq, List.mem_map]

/-- The tax-day insertion at the level of x coordinates: the result
depends only on the x coordinates of the input points. -/
lemma withTaxDays_mapX (startDate : ℤ) (totalDays : ℕ) :
    ∀ (days : List ℕ) (netReturns : List ℝ) (points : List ChartPoint),
      (withTaxDays startDate netReturns totalDays days points).map ChartPoint.x =
        dayXFold startDate totalDays days (points.map ChartPoint.x) := by
  intro days
  induction days with
  | nil =>
      intro netReturns points
      rfl
  | cons d ds ih =>
      intro netReturns points
      unfold withTaxDays dayXFold
      rw [ih]
      congr 1
      split_ifs with h1 h2 h3 h3
      · rfl
      · rw [any_x_eq] at h2
        exact absurd h2 h3
      · rw [← any_x_eq] at h3
        exact absurd h3 h2
      · rw [List.map_append]
        rfl
      · rfl

lemma dayXFold_mem_preserve (startDate : ℤ) (totalDays : ℕ) :
    ∀ (days : List ℕ) (xs : List ℤ) (x : ℤ),
      x ∈ xs → x ∈ dayXFold startDate totalDays days xs := by
  intro days
  induction days with
  | nil =>
      intro xs x hx
      exact hx
  | cons d ds ih =>
      intro xs x hx
      unfold dayXFold
      apply ih
      split_ifs <;> simp [hx]

lemma dayXFold_mem_tax (startDate : ℤ) (totalDays : ℕ) :
    ∀ (days : List ℕ) (xs : List ℤ) (d : ℕ),
      d ∈ days → d ≤ totalDays →
      getTime (addDays startDate (d : ℤ)) ∈ dayXFold startDate totalDays days xs := by
  intro days
  induction days with
  | nil =>
      intro xs d hd
      exact absurd hd (List.not_mem_nil d)
  | cons e ds ih =>
      intro xs d hd hdT
      rcases List.mem_cons.mp hd with rfl | hd'
      · unfold dayXFold
        apply dayXFold_mem_preserve
        rw [if_pos hdT]
        split_ifs with h
        · exact h
        · simp
      · unfold dayXFold
        exact ih _ d hd' hdT

lemma dayXFold_nodup (startDate : ℤ) (totalDays : ℕ) :
    ∀ (days : List ℕ) (xs : List ℤ), xs.Nodup →
      (dayXFold startDate totalDays days xs).Nodup := by
  intro days
  induction days with
  | nil =>
      intro xs h
      exact h
  | cons d ds ih =>
      intro xs h
      unfold dayXFold
      apply ih
      split_ifs with h1 h2
      · exact h
      · simp [List.nodup_append, h, h2]
      · exact h

lemma strideXs_eq_stride_mapX (startDate : ℤ) (netReturns : List ℝ)
    (totalDays : ℕ) :
    strideXs startDate totalDays =
      (stridePoints startDate netReturns totalDays
        (getSampleInterval totalDays)).map ChartPoint.x := by
  rw [stridePoints_mapX]
  rfl

lemma lastFixXs_pairwise (startDate : ℤ) (totalDays : ℕ) :
    (lastFixXs startDate totalDays).Pairwise (· < ·) := by
  have hs := getSampleInterval_pos totalDays
  have hstr := stridePoints_mapX_pairwise startDate [] totalDays
    (getSampleInterval totalDays) hs
  rw [← strideXs_eq_stride_mapX] at hstr
  unfold lastFixXs
  split_ifs with h
  · exact hstr
  · rw [List.pairwise_append]
    refine ⟨hstr, by simp, fun a ha b hb => ?_⟩
    rw [List.mem_singleton] at hb
    subst hb
    have hlast := stridePoints_mapX_getLast? startDate
      ([] : List ℝ) totalDays (getSampleInterval totalDays)
    rw [← strideXs_eq_stride_mapX] at hlast
    have hne : getTime (addDays startDate
        ((totalDays / getSampleInterval totalDays * getSampleInterval totalDays : ℕ) : ℤ)) ≠
        getTime (addDays startDate (totalDays : ℤ)) := by
      intro he
      rw [hlast] at h
      simp only [Option.any_some] at h
      exact h (by simpa using he)
    have hdivle : totalDays / getSampleInterval totalDays * getSampleInterval totalDays ≤
        totalDays := Nat.div_mul_le_self _ _
    have hdivlt : totalDays / getSampleInterval totalDays * getSampleInterval totalDays <
        totalDays := by
      rcases eq_or_lt_of_le hdivle with he | hlt
      · exact absurd (by rw [he]) hne
      · exact hlt
    have hle := stridePoints_mapX_le startDate ([] : List ℝ) totalDays
      (getSampleInterval totalDays) a
      (by rw [strideXs_eq_stride_mapX startDate ([] : List ℝ) totalDays] at ha; exact ha)
    have hltx : getTime (addDays startDate
        ((totalDays / getSampleInterval totalDays * getSampleInterval totalDays : ℕ) : ℤ)) <
        getTime (addDays startDate (totalDays : ℤ)) :=
      getTime_addDays_lt startDate (by exact_mod_cast hdivlt)
    exact lt_of_le_of_lt hle hltx

lemma lastFixXs_nodup (startDate : ℤ) (totalDays : ℕ) :
    (lastFixXs startDate totalDays).Nodup :=
  (lastFixXs_pairwise startDate totalDays).imp (fun h => ne_of_lt h)

lemma lastFixXs_mem_zero (startDate : ℤ) (totalDays : ℕ) :
    getTime (addDays startDate 0) ∈ lastFixXs startDate totalDays := by
  have h0 := stridePoints_mapX_mem_zero startDate ([] : List ℝ) totalDays
    (getSampleInterval totalDays)
  rw [← strideXs_eq_stride_mapX] at h0
  unfold lastFixXs
  split_ifs with h
  · exact h0
  · exact List.mem_append_left _ h0

lemma lastFixXs_mem_last (startDate : ℤ) (totalDays : ℕ) :
    getTime (addDays startDate (totalDays : ℤ)) ∈ lastFixXs startDate totalDays := by
  unfold lastFixXs
  split_ifs with h
  · cases hl : (strideXs startDate totalDays).getLast? with
    | none =>
        rw [hl] at h
        simp at h
    | some v =>
        rw [hl] at h
        simp only [Option.any_some, beq_iff_eq] at h
        subst h
        exact List.mem_of_mem_getLast? hl
  · exact List.mem_append_right _ (List.mem_singleton.mpr rfl)

lemma sampleXs_nodup (startDate : ℤ) (totalDays : ℕ) :
    (sampleXs startDate totalDays).Nodup :=
  dayXFold_nodup startDate totalDays chartTaxDays _
    (lastFixXs_nodup startDate totalDays)

lemma sampleXs_mem_zero (startDate : ℤ) (totalDays : ℕ) :
    getTime (addDays startDate 0) ∈ sampleXs startDate totalDays :=
  dayXFold_mem_preserve startDate totalDays chartTaxDays _ _
    (lastFixXs_mem_zero startDate totalDays)

lemma sampleXs_mem_last (startDate : ℤ) (totalDays : ℕ) :
    getTime (addDays startDate (totalDays : ℤ)) ∈ sampleXs startDate totalDays :=
  dayXFold_mem_preserve startDate totalDays chartTaxDays _ _
    (lastFixXs_mem_last startDate totalDays)

lemma sampleXs_mem_tax (startDate : ℤ) (totalDays : ℕ) (d : ℕ)
    (hd : d ∈ chartTaxDays) (hdT : d ≤ totalDays) :
    getTime (addDays startDate (d : ℤ)) ∈ sampleXs startDate totalDays :=
  dayXFold_mem_tax startDate totalDays chartTaxDays _ d hd hdT

/-- The pre-sort x coordinates of the build are `sampleXs`, independent of
the investment and rates. -/
lemma build_presort_mapX (investment : Investment) (rates : GlobalRates)
    (startDate : ℤ) (T : ℕ) :
    (withTaxDays startDate (generateNetReturnSeries investment rates T) T
        chartTaxDays
        (withLastDay startDate (generateNetReturnSeries investment rates T) T
          (stridePoints startDate (generateNetReturnSeries investment rates T) T
            (getSampleInterval T)))).map ChartPoint.x =
      sampleXs startDate T := by
  rw [withTaxDays_mapX, withLastDay_mapX,
    ← strideXs_eq_stride_mapX startDate (generateNetReturnSeries investment rates T) T]
  rfl

lemma buildInvestmentDataPoints_eq (investment : Investment)
    (rates : GlobalRates) (startDate endDate : ℤ) (T : ℕ)
    (hT : daysBetween startDate endDate = (T : ℤ)) (hpos : 0 < T) :
    buildInvestmentDataPoints investment rates startDate endDate =
      List.insertionSort pointLE
        (withTaxDays startDate (generateNetReturnSeries investment rates T) T
          chartTaxDays
          (withLastDay startDate (generateNetReturnSeries investment rates T) T
            (stridePoints startDate (generateNetReturnSeries investment rates T) T
              (getSampleInterval T)))) := by
  unfold buildInvestmentDataPoints
  simp only [hT]
  rw [if_neg (by omega : ¬ (T : ℤ) ≤ 0)]
  norm_num

/-- **C8.** For a horizon of `totalDays > 0`, the x coordinates (which
encode the day offsets injectively: `x = getTime (addDays startDate day)`)
of the points produced by `buildInvestmentDataPoints` contain day 0 and
day `totalDays` exactly once, contain every tax-transition day
`{180,181,360,361,720,721}` within the horizon exactly once, are sorted
strictly ascending (hence have no duplicate day offsets), and coincide for
every pair of investments and rate sets — the sampling depends only on the
horizon. -/
theorem buildInvestmentDataPoints_spec (investment : Investment)
    (rates : GlobalRates) (startDate endDate : ℤ) (T : ℕ)
    (hT : daysBetween startDate endDate = (T : ℤ)) (hpos : 0 < T) :
    ((buildInvestmentDataPoints investment rates startDate endDate).map
        ChartPoint.x).count (getTime (addDays startDate 0)) = 1 ∧
    ((buildInvestmentDataPoints investment rates startDate endDate).map
        ChartPoint.x).count (getTime (addDays startDate (T : ℤ))) = 1 ∧
    (∀ d ∈ chartTaxDays, d ≤ T →
      ((buildInvestmentDataPoints investment rates startDate endDate).map
          ChartPoint.x).count (getTime (addDays startDate (d : ℤ))) = 1) ∧
    ((buildInvestmentDataPoints investment rates startDate endDate).map
        ChartPoint.x).Pairwise (· < ·) ∧
    (∀ (investment2 : Investment) (rates2 : GlobalRates),
      (buildInvestmentDataPoints investment2 rates2 startDate endDate).map
          ChartPoint.x =
        (buildInvestmentDataPoints investment rates startDate endDate).map
          ChartPoint.x) := by
  have key : ∀ (inv : Investment) (r : GlobalRates),
      List.Perm
        ((buildInvestmentDataPoints inv r startDate endDate).map ChartPoint.x)
        (sampleXs startDate T) ∧
      ((buildInvestmentDataPoints inv r startDate endDate).map
        ChartPoint.x).Pairwise (· < ·) := by
    intro inv r
    rw [buildInvestmentDataPoints_eq inv r startDate endDate T hT hpos]
    have hperm := List.perm_insertionSort pointLE
      (withTaxDays startDate (generateNetReturnSeries inv r T) T chartTaxDays
        (withLastDay startDate (generateNetReturnSeries inv r T) T
          (stridePoints startDate (generateNetReturnSeries inv r T) T
            (getSampleInterval T))))
    have hpermx := List.Perm.map ChartPoint.x hperm
    rw [build_presort_mapX inv r startDate T] at hpermx
    have hnodup := (List.Perm.nodup_iff hpermx).mpr (sampleXs_nodup startDate T)
    have hsorted := List.sorted_insertionSort pointLE
      (withTaxDays startDate (generateNetReturnSeries inv r T) T chartTaxDays
        (withLastDay startDate (generateNetReturnSeries inv r T) T
          (stridePoints startDate (generateNetReturnSeries inv r T) T
            (getSampleInterval T))))
    have hpairle : (((List.insertionSort pointLE
        (withTaxDays startDate (generateNetReturnSeries inv r T) T chartTaxDays
          (withLastDay startDate (generateNetReturnSeries inv r T) T
            (stridePoints startDate (generateNetReturnSeries inv r T) T
              (getSampleInterval T))))).map ChartPoint.x).Pairwise (· ≤ ·)) :=
      List.pairwise_map.mpr hsorted
    exact ⟨hpermx,
      (hpairle.and hnodup).imp (fun h => lt_of_le_of_ne h.1 h.2)⟩
  obtain ⟨hpermx, hpairlt⟩ := key investment rates
  have hnodup := (List.Perm.nodup_iff hpermx).mpr (sampleXs_nodup startDate T)
  refine ⟨?_, ?_, fun d hd hdT => ?_, hpairlt, fun investment2 rates2 => ?_⟩
  · exact List.count_eq_one_of_mem hnodup
      ((List.Perm.mem_iff hpermx).mpr (sampleXs_mem_zero startDate T))
  · exact List.count_eq_one_of_mem hnodup
      ((List.Perm.mem_iff hpermx).mpr (sampleXs_mem_last startDate T))
  · exact List.count_eq_one_of_mem hnodup
      ((List.Perm.mem_iff hpermx).mpr (sampleXs_mem_tax startDate T d hd hdT))
  · obtain ⟨hpermx2, hpairlt2⟩ := key investment2 rates2
    haveI : IsAntisymm ℤ (· < ·) := ⟨fun a b p q => absurd p (lt_asymm q)⟩
    exact List.eq_of_perm_of_sorted (hpermx2.trans hpermx.symm) hpairlt2 hpairlt

/-- Witness for C8: a 200-day horizon starting at day index 0 with a taxed
prefixed instrument. -/
theorem buildInvestmentDataPoints_spec_witness :
    ((buildInvestmentDataPoints ⟨"prefixed", 12, true⟩
        ⟨0.1065, 0.045, 0.1075⟩ 0 200).map ChartPoint.x).count
      (getTime (addDays 0 0)) = 1 ∧
    ((buildInvestmentDataPoints ⟨"prefixed", 12, true⟩
        ⟨0.1065, 0.045, 0.1075⟩ 0 200).map ChartPoint.x).count
      (getTime (addDays 0 ((200 : ℕ) : ℤ))) = 1 ∧
    (∀ d ∈ chartTaxDays, d ≤ 200 →
      ((buildInvestmentDataPoints ⟨"prefixed", 12, true⟩
          ⟨0.1065, 0.045, 0.1075⟩ 0 200).map ChartPoint.x).count
        (getTime (addDays 0 (d : ℤ))) = 1) ∧
    ((buildInvestmentDataPoints ⟨"prefixed", 12, true⟩
        ⟨0.1065, 0.045, 0.1075⟩ 0 200).map ChartPoint.x).Pairwise (· < ·) ∧
    (∀ (investment2 : Investment) (rates2 : GlobalRates),
      (buildInvestmentDataPoints investment2 rates2 0 200).map ChartPoint.x =
        (buildInvestmentDataPoints ⟨"prefixed", 12, true⟩
          ⟨0.1065, 0.045, 0.1075⟩ 0 200).map ChartPoint.x) :=
  buildInvestmentDataPoints_spec ⟨"prefixed", 12, true⟩ ⟨0.1065, 0.045, 0.1075⟩
    0 200 200 (by norm_num [daysBetween]) (by norm_num)
